import Mathlib

/-!
Verification development for the meeting-transcript agent backend
(`src/backend/agent_agui.py` and the data model of `src/backend/models.py`).

The Python source is shallowly embedded: the mutable shared state becomes an
explicit `AgentState` value threaded through the adapter functions, Python
dictionaries produced by the external executors become association lists from
string keys to string values, and the possibility of a `KeyError` on a missing
`status` key becomes an `Except` value.  The external executors
(`CalendarTool`, `IncidentTool`, `DecisionRecordTool`) are opaque
collaborators: their result dictionaries are universally quantified inputs to
the adapters, exactly as in the source, where the adapter only inspects the
`status` and `message` keys.
-/

namespace AguiAgent

/-- Executor result dictionary: an opaque mapping produced by an external
executor.  Modelled as an association list with first-match lookup, which
matches Python dictionary lookup for the string keys the adapters inspect. -/
abbrev ResultDict := List (String × String)

/-- Python `d[k]` for a string-valued dictionary: `some v` when the key is
present, `none` when Python would raise `KeyError`. -/
def dictGet (d : ResultDict) (k : String) : Option String :=
  (d.find? (fun p => p.1 == k)).map (fun p => p.2)

/-- Python `d.get(k, dflt)`. -/
def dictGetD (d : ResultDict) (k : String) (dflt : String) : String :=
  (dictGet d k).getD dflt

/-- Shared run state.  The `AgentState` class is imported by
`agent_agui.py` from the models module; its fields are exactly those named at
its construction site in `create_initial_state` and used by the tool
adapters: an ordered list of accumulated tool-result dictionaries, the active
tool name (or none), a processing-status tag, and two date strings. -/
structure AgentState where
  tool_results : List ResultDict
  current_tool : Option String
  processing_status : String
  current_date : String
  one_week_from_now : String
deriving Repr, DecidableEq

/-- A single action item from a meeting (models.ActionItem). -/
structure ActionItem where
  task : String
  owner : String
  priority : String
  due_date : Option String
deriving Repr, DecidableEq

/-- A blocker mentioned in the meeting (models.Blocker). -/
structure Blocker where
  blocker : String
  affected_person : String
deriving Repr, DecidableEq

/-- A critical or urgent issue (models.UrgentIssue). -/
structure UrgentIssue where
  issue : String
  severity : String
deriving Repr, DecidableEq

/-- Input for creating a calendar reminder (models.CalendarReminderInput). -/
structure CalendarReminderInput where
  meeting_title : String
  meeting_type : String
  meeting_summary : String
  key_points : List String
  action_items : List ActionItem
  blockers : List Blocker
  urgent_issues : List UrgentIssue
  reminder_date : String
deriving Repr, DecidableEq

/-- A single event in the incident timeline (models.TimelineEvent). -/
structure TimelineEvent where
  time : String
  event : String
  actor : Option String
deriving Repr, DecidableEq

/-- Business impact of an incident (models.BusinessImpact). -/
structure BusinessImpact where
  description : String
  downtime_duration : Option String
  affected_users : Option String
  failed_transactions : Option String
  revenue_impact : Option String
deriving Repr, DecidableEq

/-- A follow-up action after an incident (models.FollowUpAction). -/
structure FollowUpAction where
  action : String
  owner : String
  priority : String
  due_date : Option String
deriving Repr, DecidableEq

/-- Input for generating an incident report (models.IncidentReportInput). -/
structure IncidentReportInput where
  incident_title : String
  severity : String
  start_time : String
  detection_time : Option String
  resolution_time : Option String
  root_cause : String
  business_impact : BusinessImpact
  timeline : List TimelineEvent
  resolution_steps : List String
  stakeholders_notified : List String
  follow_up_actions : List FollowUpAction
  additional_notes : Option String
deriving Repr, DecidableEq

/-- An option considered during decision-making (models.OptionConsidered). -/
structure OptionConsidered where
  option : String
  pros : List String
  cons : List String
deriving Repr, DecidableEq

/-- Expected consequences of a decision (models.Consequences). -/
structure Consequences where
  positive : List String
  negative : List String
  risks : List String
deriving Repr, DecidableEq

/-- Input for creating a decision record (models.DecisionRecordInput). -/
structure DecisionRecordInput where
  decision_title : String
  decision_date : String
  status : String
  context : String
  options_considered : List OptionConsidered
  decision : String
  rationale : String
  consequences : Option Consequences
  decision_makers : List String
  additional_notes : Option String
deriving Repr, DecidableEq

/-- The ag_ui StateSnapshotEvent carried in the ToolReturn metadata: an event
type tag together with a full copy of the shared state. -/
structure StateSnapshotEvent where
  type : String
  snapshot : AgentState
deriving Repr, DecidableEq

/-- The value a tool adapter returns to the framework: a message for the LLM
paired with metadata events streamed to the frontend. -/
structure ToolReturn where
  return_value : String
  metadata : List StateSnapshotEvent
deriving Repr, DecidableEq

/-- A single-quote character as a string, as it appears inside the Python
f-string confirmation messages. -/
def sq : String := String.singleton (Char.ofNat 39)

/-- Tool adapter `create_calendar_reminder` from agent_agui.py.  The mutable
`ctx.deps.state` becomes the explicit `st` argument; the call
`_calendar_tool.execute(input_data.model_dump())` is an opaque external call,
so its result dictionary is the `result` argument.  The adapter sets
`current_tool` and `processing_status`, appends the result, clears
`current_tool`, then builds the return message; a missing `status` key is the
`Except.error` case (Python `KeyError`), which in the source would propagate
after the state mutations already happened. -/
def create_calendar_reminder (st : AgentState) (input_data : CalendarReminderInput)
    (result : ResultDict) : AgentState × Except String ToolReturn :=
  let st1 := { st with current_tool := some "create_calendar_reminder",
                       processing_status := "executing" }
  let st2 := { st1 with tool_results := st1.tool_results ++ [result],
                        current_tool := none }
  (st2,
    match dictGet result "status" with
    | none => Except.error "KeyError: status"
    | some s =>
      let return_message :=
        if s == "success" then
          "Created calendar reminder " ++ sq ++ input_data.meeting_title ++ sq ++
            " for " ++ input_data.reminder_date ++ " with " ++
            Nat.repr input_data.action_items.length ++ " action items."
        else
          "Failed to create calendar reminder: " ++ dictGetD result "message" "Unknown error"
      Except.ok { return_value := return_message,
                  metadata := [{ type := "STATE_SNAPSHOT", snapshot := st2 }] })

/-- Tool adapter `generate_incident_report` from agent_agui.py, embedded the
same way as the calendar adapter.  Python `severity.upper()` becomes
`String.toUpper` and the slice `root_cause[:100]` becomes `String.take`. -/
def generate_incident_report (st : AgentState) (input_data : IncidentReportInput)
    (result : ResultDict) : AgentState × Except String ToolReturn :=
  let st1 := { st with current_tool := some "generate_incident_report",
                       processing_status := "executing" }
  let st2 := { st1 with tool_results := st1.tool_results ++ [result],
                        current_tool := none }
  (st2,
    match dictGet result "status" with
    | none => Except.error "KeyError: status"
    | some s =>
      let return_message :=
        if s == "success" then
          "Generated incident report for " ++ sq ++ input_data.incident_title ++ sq ++
            " (Severity: " ++ input_data.severity.toUpper ++ "). Root cause: " ++
            (input_data.root_cause.take 100) ++ "..."
        else
          "Failed to generate incident report: " ++ dictGetD result "message" "Unknown error"
      Except.ok { return_value := return_message,
                  metadata := [{ type := "STATE_SNAPSHOT", snapshot := st2 }] })

/-- Tool adapter `create_decision_record` from agent_agui.py, embedded the
same way as the calendar adapter. -/
def create_decision_record (st : AgentState) (input_data : DecisionRecordInput)
    (result : ResultDict) : AgentState × Except String ToolReturn :=
  let st1 := { st with current_tool := some "create_decision_record",
                       processing_status := "executing" }
  let st2 := { st1 with tool_results := st1.tool_results ++ [result],
                        current_tool := none }
  (st2,
    match dictGet result "status" with
    | none => Except.error "KeyError: status"
    | some s =>
      let return_message :=
        if s == "success" then
          "Created decision record for " ++ sq ++ input_data.decision_title ++ sq ++
            " (" ++ Nat.repr input_data.options_considered.length ++
            " options considered, decision: " ++ input_data.status ++ ")."
        else
          "Failed to create decision record: " ++ dictGetD result "message" "Unknown error"
      Except.ok { return_value := return_message,
                  metadata := [{ type := "STATE_SNAPSHOT", snapshot := st2 }] })

/-- The string `s` begins with the literal `p`. -/
def strBeginsWith (s p : String) : Prop := ∃ t, s = p ++ t

/-- The string `s` contains `sub` as a substring. -/
def strContainsSub (s sub : String) : Prop := ∃ a b, s = a ++ (sub ++ b)

/-- A calendar date, standing for the date part of Python
`datetime.now(tz=UTC)`.  The time of day is omitted: the source renders only
the date with `strftime` and adds a whole number of days with `timedelta`, and
in UTC (no daylight saving) adding exactly seven 24-hour days to any time of
day advances the calendar date by exactly seven days. -/
structure Date where
  year : Nat
  month : Nat
  day : Nat
deriving Repr, DecidableEq

/-- Gregorian leap-year rule, as used by Python datetime. -/
def isLeap (y : Nat) : Bool :=
  (y % 4 == 0 && y % 100 != 0) || y % 400 == 0

/-- Number of days in a month of the proleptic Gregorian calendar. -/
def daysInMonth (y m : Nat) : Nat :=
  if m == 2 then (if isLeap y then 29 else 28)
  else if m == 4 || m == 6 || m == 9 || m == 11 then 30
  else 31

/-- A date is valid when its month and day are in range. -/
def ValidDate (d : Date) : Prop :=
  1 ≤ d.month ∧ d.month ≤ 12 ∧ 1 ≤ d.day ∧ d.day ≤ daysInMonth d.year d.month

instance (d : Date) : Decidable (ValidDate d) := by
  unfold ValidDate; infer_instance

/-- The calendar day after a given date, with month and year rollover. -/
def nextDay (d : Date) : Date :=
  if d.day < daysInMonth d.year d.month then ⟨d.year, d.month, d.day + 1⟩
  else if d.month < 12 then ⟨d.year, d.month + 1, 1⟩
  else ⟨d.year + 1, 1, 1⟩

/-- Adding `n` calendar days, modelling Python `timedelta(days=n)` applied to
a UTC datetime and then rendered as a date. -/
def addDays (n : Nat) (d : Date) : Date :=
  match n with
  | 0 => d
  | n + 1 => nextDay (addDays n d)

/-- Zero-padding to two digits, as in strftime %m and %d. -/
def pad2 (n : Nat) : String :=
  if n < 10 then "0" ++ Nat.repr n else Nat.repr n

/-- Zero-padding to four digits, as in strftime %Y. -/
def pad4 (n : Nat) : String :=
  if n < 10 then "000" ++ Nat.repr n
  else if n < 100 then "00" ++ Nat.repr n
  else if n < 1000 then "0" ++ Nat.repr n
  else Nat.repr n

/-- Rendering of a date in YYYY-MM-DD format, modelling
`strftime("%Y-%m-%d")`. -/
def renderDate (d : Date) : String :=
  pad4 d.year ++ "-" ++ pad2 d.month ++ "-" ++ pad2 d.day

/-- State-initialization helper `create_initial_state` from agent_agui.py.
The nondeterministic `datetime.now(tz=UTC)` becomes the explicit `now`
argument (see `Date` for why the time of day is dropped). -/
def create_initial_state (now : Date) : AgentState :=
  { tool_results := []
    current_tool := none
    processing_status := "idle"
    current_date := renderDate now
    one_week_from_now := renderDate (addDays 7 now) }

/-- The orchestration object built by the agent factory.  The framework
`Agent` class is external; for the singleton claim only its identity as a
value matters, so it is modelled by the configuration the factory fixes:
the model identifier read from the environment and the names of the three
registered tool adapters. -/
structure Agent where
  model_name : String
  tool_names : List String
deriving Repr, DecidableEq

/-- Agent factory `create_agui_agent` from agent_agui.py.  The environment
variable LLM_MODEL becomes the explicit `llm_model` argument; the framework
construction is represented by recording the configuration it fixes. -/
def create_agui_agent (llm_model : String) : Agent :=
  { model_name := llm_model
    tool_names := ["create_calendar_reminder", "generate_incident_report",
                   "create_decision_record"] }

/-- Lazy getter `get_agui_agent` from agent_agui.py.  The module-level global
`_agent` becomes an explicit `Option Agent` value passed in and returned: on
`none` the factory runs and its result is stored and returned, otherwise the
stored object is returned unchanged. -/
def get_agui_agent (llm_model : String) (g : Option Agent) : Option Agent × Agent :=
  match g with
  | none => let a := create_agui_agent llm_model; (some a, a)
  | some a => (some a, a)

/-- One LLM-chosen tool invocation: which adapter runs, its validated input,
and the result dictionary the external executor returns for it. -/
inductive ToolCall where
  | calendar (i : CalendarReminderInput) (r : ResultDict)
  | incident (i : IncidentReportInput) (r : ResultDict)
  | decision (i : DecisionRecordInput) (r : ResultDict)
deriving Repr, DecidableEq

/-- The executor result dictionary carried by a tool call. -/
def callResult : ToolCall → ResultDict
  | ToolCall.calendar _ r => r
  | ToolCall.incident _ r => r
  | ToolCall.decision _ r => r

/-- Running one tool adapter on the shared state (the state component of the
adapter; the returned message is irrelevant to state evolution). -/
def runCall (st : AgentState) (c : ToolCall) : AgentState :=
  match c with
  | ToolCall.calendar i r => (create_calendar_reminder st i r).1
  | ToolCall.incident i r => (generate_incident_report st i r).1
  | ToolCall.decision i r => (create_decision_record st i r).1

/-- Running a sequence of tool invocations in order, as the framework does
within a single agent run. -/
def runCalls (st : AgentState) (cs : List ToolCall) : AgentState :=
  cs.foldl runCall st

/-! Concrete sample values used to instantiate the universally quantified
theorems below on closed inputs. -/

def sampleState : AgentState := create_initial_state ⟨2026, 10, 12⟩

def sampleCalendarInput : CalendarReminderInput :=
  { meeting_title := "Q4 Planning"
    meeting_type := "planning"
    meeting_summary := "Planned the Q4 roadmap."
    key_points := ["roadmap agreed"]
    action_items :=
      [{ task := "draft roadmap", owner := "Ana", priority := "high", due_date := none },
       { task := "book room", owner := "Ben", priority := "low", due_date := none },
       { task := "send notes", owner := "Cam", priority := "medium",
         due_date := some "2026-10-20" }]
    blockers := []
    urgent_issues := []
    reminder_date := "2026-10-19" }

def sampleIncidentInput : IncidentReportInput :=
  { incident_title := "API outage"
    severity := "high"
    start_time := "10:00"
    detection_time := some "10:05"
    resolution_time := some "10:45"
    root_cause := "Connection pool exhaustion"
    business_impact :=
      { description := "Checkout failures"
        downtime_duration := some "45 minutes"
        affected_users := none
        failed_transactions := none
        revenue_impact := none }
    timeline := [{ time := "10:00", event := "alerts fired", actor := none }]
    resolution_steps := ["restart pool"]
    stakeholders_notified := ["oncall"]
    follow_up_actions := []
    additional_notes := none }

def sampleDecisionInput : DecisionRecordInput :=
  { decision_title := "Adopt Postgres"
    decision_date := "2026-10-12"
    status := "accepted"
    context := "Need a relational store."
    options_considered :=
      [{ option := "Postgres", pros := ["mature"], cons := [] },
       { option := "MySQL", pros := [], cons := ["tooling"] }]
    decision := "Postgres"
    rationale := "Team experience."
    consequences := none
    decision_makers := ["Ana"]
    additional_notes := none }

def sampleFailResult : ResultDict := [("status", "error"), ("message", "disk full")]

def sampleOkResult : ResultDict := [("status", "success")]

/-! Helper lemmas characterizing the three adapters. -/

theorem create_calendar_reminder_state (st : AgentState) (ci : CalendarReminderInput)
    (r : ResultDict) :
    (create_calendar_reminder st ci r).1 =
      { st with tool_results := st.tool_results ++ [r], current_tool := none,
                processing_status := "executing" } := rfl

theorem generate_incident_report_state (st : AgentState) (ii : IncidentReportInput)
    (r : ResultDict) :
    (generate_incident_report st ii r).1 =
      { st with tool_results := st.tool_results ++ [r], current_tool := none,
                processing_status := "executing" } := rfl

theorem create_decision_record_state (st : AgentState) (di : DecisionRecordInput)
    (r : ResultDict) :
    (create_decision_record st di r).1 =
      { st with tool_results := st.tool_results ++ [r], current_tool := none,
                processing_status := "executing" } := rfl

theorem create_calendar_reminder_fail (st : AgentState) (ci : CalendarReminderInput)
    (r : ResultDict) (s : String) (h1 : dictGet r "status" = some s)
    (h2 : (s == "success") = false) :
    (create_calendar_reminder st ci r).2 = Except.ok
      { return_value := "Failed to create calendar reminder: " ++
          dictGetD r "message" "Unknown error",
        metadata := [{ type := "STATE_SNAPSHOT",
                       snapshot := (create_calendar_reminder st ci r).1 }] } := by
  simp [create_calendar_reminder, h1, h2]

theorem generate_incident_report_fail (st : AgentState) (ii : IncidentReportInput)
    (r : ResultDict) (s : String) (h1 : dictGet r "status" = some s)
    (h2 : (s == "success") = false) :
    (generate_incident_report st ii r).2 = Except.ok
      { return_value := "Failed to generate incident report: " ++
          dictGetD r "message" "Unknown error",
        metadata := [{ type := "STATE_SNAPSHOT",
                       snapshot := (generate_incident_report st ii r).1 }] } := by
  simp [generate_incident_report, h1, h2]

theorem create_decision_record_fail (st : AgentState) (di : DecisionRecordInput)
    (r : ResultDict) (s : String) (h1 : dictGet r "status" = some s)
    (h2 : (s == "success") = false) :
    (create_decision_record st di r).2 = Except.ok
      { return_value := "Failed to create decision record: " ++
          dictGetD r "message" "Unknown error",
        metadata := [{ type := "STATE_SNAPSHOT",
                       snapshot := (create_decision_record st di r).1 }] } := by
  simp [create_decision_record, h1, h2]

theorem create_calendar_reminder_success (st : AgentState) (ci : CalendarReminderInput)
    (r : ResultDict) (h1 : dictGet r "status" = some "success") :
    (create_calendar_reminder st ci r).2 = Except.ok
      { return_value := "Created calendar reminder " ++ sq ++ ci.meeting_title ++ sq ++
          " for " ++ ci.reminder_date ++ " with " ++
          Nat.repr ci.action_items.length ++ " action items.",
        metadata := [{ type := "STATE_SNAPSHOT",
                       snapshot := (create_calendar_reminder st ci r).1 }] } := by
  simp [create_calendar_reminder, h1]

theorem generate_incident_report_success (st : AgentState) (ii : IncidentReportInput)
    (r : ResultDict) (h1 : dictGet r "status" = some "success") :
    (generate_incident_report st ii r).2 = Except.ok
      { return_value := "Generated incident report for " ++ sq ++ ii.incident_title ++ sq ++
          " (Severity: " ++ ii.severity.toUpper ++ "). Root cause: " ++
          (ii.root_cause.take 100) ++ "...",
        metadata := [{ type := "STATE_SNAPSHOT",
                       snapshot := (generate_incident_report st ii r).1 }] } := by
  simp [generate_incident_report, h1]

theorem create_decision_record_success (st : AgentState) (di : DecisionRecordInput)
    (r : ResultDict) (h1 : dictGet r "status" = some "success") :
    (create_decision_record st di r).2 = Except.ok
      { return_value := "Created decision record for " ++ sq ++ di.decision_title ++ sq ++
          " (" ++ Nat.repr di.options_considered.length ++
          " options considered, decision: " ++ di.status ++ ").",
        metadata := [{ type := "STATE_SNAPSHOT",
                       snapshot := (create_decision_record st di r).1 }] } := by
  simp [create_decision_record, h1]

theorem begins_of_split (lit p rest m : String) (h : lit = p ++ rest) :
    strBeginsWith (lit ++ m) p :=
  ⟨rest ++ m, by rw [h, String.append_assoc]⟩

theorem contains_of_append (lit m : String) : strContainsSub (lit ++ m) m :=
  ⟨lit, "", by rw [String.append_empty]⟩

theorem one_le_daysInMonth (y m : Nat) : 1 ≤ daysInMonth y m := by
  unfold daysInMonth
  split_ifs <;> omega

theorem nextDay_valid {d : Date} (h : ValidDate d) : ValidDate (nextDay d) := by
  obtain ⟨h1, h2, h3, h4⟩ := h
  unfold nextDay
  split_ifs with hd hm
  · show 1 ≤ d.month ∧ d.month ≤ 12 ∧ 1 ≤ d.day + 1 ∧
      d.day + 1 ≤ daysInMonth d.year d.month
    exact ⟨h1, h2, by omega, by omega⟩
  · show 1 ≤ d.month + 1 ∧ d.month + 1 ≤ 12 ∧ 1 ≤ 1 ∧
      1 ≤ daysInMonth d.year (d.month + 1)
    exact ⟨by omega, by omega, Nat.le_refl 1, one_le_daysInMonth _ _⟩
  · show 1 ≤ 1 ∧ 1 ≤ 12 ∧ 1 ≤ 1 ∧ 1 ≤ daysInMonth (d.year + 1) 1
    exact ⟨Nat.le_refl 1, by omega, Nat.le_refl 1, one_le_daysInMonth _ _⟩

theorem addDays_valid (n : Nat) {d : Date} (h : ValidDate d) : ValidDate (addDays n d) := by
  induction n with
  | zero => exact h
  | succ k ih => exact nextDay_valid ih

/-! Theorems settling the claims. -/

/-- C1: for every tool adapter (create_calendar_reminder,
generate_incident_report, create_decision_record), every validated input
record and every executor result dictionary, after the adapter runs the
shared state has `current_tool = none` and the length of `tool_results`
has increased by exactly one. -/
theorem adapters_clear_tool_and_append_one (st : AgentState)
    (ci : CalendarReminderInput) (ii : IncidentReportInput)
    (di : DecisionRecordInput) (r : ResultDict) :
    ((create_calendar_reminder st ci r).1.current_tool = none ∧
      (create_calendar_reminder st ci r).1.tool_results.length =
        st.tool_results.length + 1) ∧
    ((generate_incident_report st ii r).1.current_tool = none ∧
      (generate_incident_report st ii r).1.tool_results.length =
        st.tool_results.length + 1) ∧
    ((create_decision_record st di r).1.current_tool = none ∧
      (create_decision_record st di r).1.tool_results.length =
        st.tool_results.length + 1) := by
  refine ⟨⟨rfl, ?_⟩, ⟨rfl, ?_⟩, ⟨rfl, ?_⟩⟩ <;>
    simp [create_calendar_reminder_state, generate_incident_report_state,
      create_decision_record_state]

/-- C9: every tool adapter sets `processing_status` to "executing" before
calling the executor and never resets it, so after any adapter runs, on any
prior state, input and executor result, the state has
`processing_status = "executing"`. -/
theorem adapters_leave_processing_status_executing (st : AgentState)
    (ci : CalendarReminderInput) (ii : IncidentReportInput)
    (di : DecisionRecordInput) (r : ResultDict) :
    (create_calendar_reminder st ci r).1.processing_status = "executing" ∧
    (generate_incident_report st ii r).1.processing_status = "executing" ∧
    (create_decision_record st di r).1.processing_status = "executing" :=
  ⟨rfl, rfl, rfl⟩

/-- C10: every tool adapter leaves `current_date` and `one_week_from_now`
exactly as they were before it ran: the adapters mutate only `current_tool`,
`processing_status` and `tool_results`. -/
theorem adapters_preserve_dates (st : AgentState)
    (ci : CalendarReminderInput) (ii : IncidentReportInput)
    (di : DecisionRecordInput) (r : ResultDict) :
    ((create_calendar_reminder st ci r).1.current_date = st.current_date ∧
      (create_calendar_reminder st ci r).1.one_week_from_now = st.one_week_from_now) ∧
    ((generate_incident_report st ii r).1.current_date = st.current_date ∧
      (generate_incident_report st ii r).1.one_week_from_now = st.one_week_from_now) ∧
    ((create_decision_record st di r).1.current_date = st.current_date ∧
      (create_decision_record st di r).1.one_week_from_now = st.one_week_from_now) :=
  ⟨⟨rfl, rfl⟩, ⟨rfl, rfl⟩, ⟨rfl, rfl⟩⟩

/-- C2: for every tool adapter, when the executor result carries a status
different from "success", the string returned to the LLM begins with the
literal "Failed to " and contains the value of the result message key when
present, or the fallback "Unknown error" when absent (which is exactly
`dictGetD r "message" "Unknown error"`). -/
theorem adapters_failure_message (st : AgentState) (ci : CalendarReminderInput)
    (ii : IncidentReportInput) (di : DecisionRecordInput) (r : ResultDict)
    (s : String) (h1 : dictGet r "status" = some s) (h2 : s ≠ "success") :
    (∃ tr, (create_calendar_reminder st ci r).2 = Except.ok tr ∧
      strBeginsWith tr.return_value "Failed to " ∧
      strContainsSub tr.return_value (dictGetD r "message" "Unknown error")) ∧
    (∃ tr, (generate_incident_report st ii r).2 = Except.ok tr ∧
      strBeginsWith tr.return_value "Failed to " ∧
      strContainsSub tr.return_value (dictGetD r "message" "Unknown error")) ∧
    (∃ tr, (create_decision_record st di r).2 = Except.ok tr ∧
      strBeginsWith tr.return_value "Failed to " ∧
      strContainsSub tr.return_value (dictGetD r "message" "Unknown error")) := by
  have hb : (s == "success") = false := beq_eq_false_iff_ne.mpr h2
  refine ⟨⟨_, create_calendar_reminder_fail st ci r s h1 hb, ?_, ?_⟩,
          ⟨_, generate_incident_report_fail st ii r s h1 hb, ?_, ?_⟩,
          ⟨_, create_decision_record_fail st di r s h1 hb, ?_, ?_⟩⟩
  · exact begins_of_split _ "Failed to " "create calendar reminder: " _ (by decide)
  · exact contains_of_append _ _
  · exact begins_of_split _ "Failed to " "generate incident report: " _ (by decide)
  · exact contains_of_append _ _
  · exact begins_of_split _ "Failed to " "create decision record: " _ (by decide)
  · exact contains_of_append _ _

/-- Witness for C2: the failure-message theorem instantiated on concrete
inputs with an executor result of status "error" and message "disk full". -/
theorem adapters_failure_message_witness :
    (dictGet sampleFailResult "status" = some "error" ∧ "error" ≠ "success") ∧
    ((∃ tr, (create_calendar_reminder sampleState sampleCalendarInput
        sampleFailResult).2 = Except.ok tr ∧
      strBeginsWith tr.return_value "Failed to " ∧
      strContainsSub tr.return_value
        (dictGetD sampleFailResult "message" "Unknown error")) ∧
    (∃ tr, (generate_incident_report sampleState sampleIncidentInput
        sampleFailResult).2 = Except.ok tr ∧
      strBeginsWith tr.return_value "Failed to " ∧
      strContainsSub tr.return_value
        (dictGetD sampleFailResult "message" "Unknown error")) ∧
    (∃ tr, (create_decision_record sampleState sampleDecisionInput
        sampleFailResult).2 = Except.ok tr ∧
      strBeginsWith tr.return_value "Failed to " ∧
      strContainsSub tr.return_value
        (dictGetD sampleFailResult "message" "Unknown error"))) :=
  ⟨⟨by decide, by decide⟩,
   adapters_failure_message sampleState sampleCalendarInput sampleIncidentInput
     sampleDecisionInput sampleFailResult "error" (by decide) (by decide)⟩

/-- C3: for every tool adapter, when the executor result status equals
"success", the confirmation string contains the primary title field of the
input record and the documented counts: the calendar message contains
"3 action items" whenever the action-item list has length 3, and the decision
message contains the number of options considered. -/
theorem adapters_success_message (st : AgentState) (ci : CalendarReminderInput)
    (ii : IncidentReportInput) (di : DecisionRecordInput) (r : ResultDict)
    (h1 : dictGet r "status" = some "success") :
    (∃ tr, (create_calendar_reminder st ci r).2 = Except.ok tr ∧
      strContainsSub tr.return_value ci.meeting_title ∧
      (ci.action_items.length = 3 → strContainsSub tr.return_value "3 action items")) ∧
    (∃ tr, (generate_incident_report st ii r).2 = Except.ok tr ∧
      strContainsSub tr.return_value ii.incident_title) ∧
    (∃ tr, (create_decision_record st di r).2 = Except.ok tr ∧
      strContainsSub tr.return_value di.decision_title ∧
      strContainsSub tr.return_value
        (Nat.repr di.options_considered.length ++ " options considered")) := by
  refine ⟨⟨_, create_calendar_reminder_success st ci r h1, ?_, ?_⟩,
          ⟨_, generate_incident_report_success st ii r h1, ?_⟩,
          ⟨_, create_decision_record_success st di r h1, ?_, ?_⟩⟩
  · refine ⟨"Created calendar reminder " ++ sq,
      sq ++ " for " ++ ci.reminder_date ++ " with " ++
        Nat.repr ci.action_items.length ++ " action items.", ?_⟩
    simp only [String.append_assoc]
  · intro h3
    refine ⟨"Created calendar reminder " ++ sq ++ ci.meeting_title ++ sq ++
      " for " ++ ci.reminder_date ++ " with ", ".", ?_⟩
    rw [h3]
    have e1 : Nat.repr 3 = "3" := by decide
    have e2 : ("3 action items" : String) ++ "." = "3" ++ " action items." := by decide
    rw [e1, e2]
    simp only [String.append_assoc]
  · refine ⟨"Generated incident report for " ++ sq,
      sq ++ " (Severity: " ++ ii.severity.toUpper ++ "). Root cause: " ++
        (ii.root_cause.take 100) ++ "...", ?_⟩
    simp only [String.append_assoc]
  · refine ⟨"Created decision record for " ++ sq,
      sq ++ " (" ++ Nat.repr di.options_considered.length ++
        " options considered, decision: " ++ di.status ++ ").", ?_⟩
    simp only [String.append_assoc]
  · refine ⟨"Created decision record for " ++ sq ++ di.decision_title ++ sq ++ " (",
      ", decision: " ++ di.status ++ ").", ?_⟩
    have e3 : (" options considered, decision: " : String) =
        " options considered" ++ ", decision: " := by decide
    rw [e3]
    simp only [String.append_assoc]

/-- Witness for C3: the success-message theorem instantiated on concrete
inputs, with a calendar record holding exactly three action items and an
executor result of status "success". -/
theorem adapters_success_message_witness :
    (dictGet sampleOkResult "status" = some "success") ∧
    ((∃ tr, (create_calendar_reminder sampleState sampleCalendarInput
        sampleOkResult).2 = Except.ok tr ∧
      strContainsSub tr.return_value sampleCalendarInput.meeting_title ∧
      (sampleCalendarInput.action_items.length = 3 →
        strContainsSub tr.return_value "3 action items")) ∧
    (∃ tr, (generate_incident_report sampleState sampleIncidentInput
        sampleOkResult).2 = Except.ok tr ∧
      strContainsSub tr.return_value sampleIncidentInput.incident_title) ∧
    (∃ tr, (create_decision_record sampleState sampleDecisionInput
        sampleOkResult).2 = Except.ok tr ∧
      strContainsSub tr.return_value sampleDecisionInput.decision_title ∧
      strContainsSub tr.return_value
        (Nat.repr sampleDecisionInput.options_considered.length ++
          " options considered"))) :=
  ⟨by decide,
   adapters_success_message sampleState sampleCalendarInput sampleIncidentInput
     sampleDecisionInput sampleOkResult (by decide)⟩

/-- C4: the state-initialization helper is deterministic in the underlying
calendar day, and `one_week_from_now` is the YYYY-MM-DD rendering of the date
exactly seven calendar days after the (valid) date rendered in
`current_date`; adding seven days also yields a valid date again. -/
theorem create_initial_state_dates (now now2 : Date) (h : ValidDate now)
    (heq : now2 = now) :
    ((create_initial_state now2).current_date =
        (create_initial_state now).current_date ∧
      (create_initial_state now2).one_week_from_now =
        (create_initial_state now).one_week_from_now) ∧
    (create_initial_state now).current_date = renderDate now ∧
    ValidDate (addDays 7 now) ∧
    (create_initial_state now).one_week_from_now = renderDate (addDays 7 now) := by
  subst heq
  exact ⟨⟨rfl, rfl⟩, rfl, addDays_valid 7 h, rfl⟩

/-- Witness for C4: the initialization theorem instantiated on the concrete
day 2026-10-12, for which one week later is 2026-10-19. -/
theorem create_initial_state_dates_witness :
    (ValidDate ⟨2026, 10, 12⟩ ∧ (⟨2026, 10, 12⟩ : Date) = ⟨2026, 10, 12⟩) ∧
    (((create_initial_state ⟨2026, 10, 12⟩).current_date =
        (create_initial_state ⟨2026, 10, 12⟩).current_date ∧
      (create_initial_state ⟨2026, 10, 12⟩).one_week_from_now =
        (create_initial_state ⟨2026, 10, 12⟩).one_week_from_now) ∧
    (create_initial_state ⟨2026, 10, 12⟩).current_date =
      renderDate ⟨2026, 10, 12⟩ ∧
    ValidDate (addDays 7 ⟨2026, 10, 12⟩) ∧
    (create_initial_state ⟨2026, 10, 12⟩).one_week_from_now =
      renderDate (addDays 7 ⟨2026, 10, 12⟩)) :=
  ⟨⟨by decide, rfl⟩,
   create_initial_state_dates ⟨2026, 10, 12⟩ ⟨2026, 10, 12⟩ (by decide) rfl⟩

/-- C5: on an executor result with a non-"success" status, every adapter
returns an ok value (no exception) whose message is a failure sentence, and
performs no rollback: the final state is exactly the mutated state with the
result appended, `current_tool` cleared and `processing_status` set, the same
state formula as on success. -/
theorem adapters_failure_no_rollback (st : AgentState) (ci : CalendarReminderInput)
    (ii : IncidentReportInput) (di : DecisionRecordInput) (r : ResultDict)
    (s : String) (h1 : dictGet r "status" = some s) (h2 : s ≠ "success") :
    ((create_calendar_reminder st ci r).1 =
      { st with tool_results := st.tool_results ++ [r], current_tool := none,
                processing_status := "executing" } ∧
     ∃ tr, (create_calendar_reminder st ci r).2 = Except.ok tr ∧
       strBeginsWith tr.return_value "Failed to ") ∧
    ((generate_incident_report st ii r).1 =
      { st with tool_results := st.tool_results ++ [r], current_tool := none,
                processing_status := "executing" } ∧
     ∃ tr, (generate_incident_report st ii r).2 = Except.ok tr ∧
       strBeginsWith tr.return_value "Failed to ") ∧
    ((create_decision_record st di r).1 =
      { st with tool_results := st.tool_results ++ [r], current_tool := none,
                processing_status := "executing" } ∧
     ∃ tr, (create_decision_record st di r).2 = Except.ok tr ∧
       strBeginsWith tr.return_value "Failed to ") := by
  have hb : (s == "success") = false := beq_eq_false_iff_ne.mpr h2
  refine ⟨⟨create_calendar_reminder_state st ci r,
            _, create_calendar_reminder_fail st ci r s h1 hb, ?_⟩,
          ⟨generate_incident_report_state st ii r,
            _, generate_incident_report_fail st ii r s h1 hb, ?_⟩,
          ⟨create_decision_record_state st di r,
            _, create_decision_record_fail st di r s h1 hb, ?_⟩⟩
  · exact begins_of_split _ "Failed to " "create calendar reminder: " _ (by decide)
  · exact begins_of_split _ "Failed to " "generate incident report: " _ (by decide)
  · exact begins_of_split _ "Failed to " "create decision record: " _ (by decide)

/-- Witness for C5: the no-rollback theorem instantiated on concrete inputs
with an executor result of status "error". -/
theorem adapters_failure_no_rollback_witness :
    (dictGet sampleFailResult "status" = some "error" ∧ "error" ≠ "success") ∧
    (((create_calendar_reminder sampleState sampleCalendarInput sampleFailResult).1 =
      { sampleState with
          tool_results := sampleState.tool_results ++ [sampleFailResult],
          current_tool := none, processing_status := "executing" } ∧
     ∃ tr, (create_calendar_reminder sampleState sampleCalendarInput
         sampleFailResult).2 = Except.ok tr ∧
       strBeginsWith tr.return_value "Failed to ") ∧
    ((generate_incident_report sampleState sampleIncidentInput sampleFailResult).1 =
      { sampleState with
          tool_results := sampleState.tool_results ++ [sampleFailResult],
          current_tool := none, processing_status := "executing" } ∧
     ∃ tr, (generate_incident_report sampleState sampleIncidentInput
         sampleFailResult).2 = Except.ok tr ∧
       strBeginsWith tr.return_value "Failed to ") ∧
    ((create_decision_record sampleState sampleDecisionInput sampleFailResult).1 =
      { sampleState with
          tool_results := sampleState.tool_results ++ [sampleFailResult],
          current_tool := none, processing_status := "executing" } ∧
     ∃ tr, (create_decision_record sampleState sampleDecisionInput
         sampleFailResult).2 = Except.ok tr ∧
       strBeginsWith tr.return_value "Failed to ")) :=
  ⟨⟨by decide, by decide⟩,
   adapters_failure_no_rollback sampleState sampleCalendarInput sampleIncidentInput
     sampleDecisionInput sampleFailResult "error" (by decide) (by decide)⟩

theorem calendar_last_result (st : AgentState) (ci : CalendarReminderInput)
    (r : ResultDict) :
    (create_calendar_reminder st ci r).1.tool_results.getLast? = some r := by
  rw [create_calendar_reminder_state]
  exact List.getLast?_append_cons st.tool_results r []

theorem incident_last_result (st : AgentState) (ii : IncidentReportInput)
    (r : ResultDict) :
    (generate_incident_report st ii r).1.tool_results.getLast? = some r := by
  rw [generate_incident_report_state]
  exact List.getLast?_append_cons st.tool_results r []

theorem decision_last_result (st : AgentState) (di : DecisionRecordInput)
    (r : ResultDict) :
    (create_decision_record st di r).1.tool_results.getLast? = some r := by
  rw [create_decision_record_state]
  exact List.getLast?_append_cons st.tool_results r []

/-- C6: whenever an adapter returns (the executor result carries a status
key), the returned value pairs the message with metadata holding exactly one
state-snapshot event whose snapshot is the full post-mutation state: its
last tool result is the newly appended executor result and its
`current_tool` is none. -/
theorem adapters_snapshot_full_copy (st : AgentState) (ci : CalendarReminderInput)
    (ii : IncidentReportInput) (di : DecisionRecordInput) (r : ResultDict)
    (s : String) (h1 : dictGet r "status" = some s) :
    (∃ tr, (create_calendar_reminder st ci r).2 = Except.ok tr ∧
      tr.metadata = [{ type := "STATE_SNAPSHOT",
                       snapshot := (create_calendar_reminder st ci r).1 }] ∧
      (create_calendar_reminder st ci r).1.tool_results.getLast? = some r ∧
      (create_calendar_reminder st ci r).1.current_tool = none) ∧
    (∃ tr, (generate_incident_report st ii r).2 = Except.ok tr ∧
      tr.metadata = [{ type := "STATE_SNAPSHOT",
                       snapshot := (generate_incident_report st ii r).1 }] ∧
      (generate_incident_report st ii r).1.tool_results.getLast? = some r ∧
      (generate_incident_report st ii r).1.current_tool = none) ∧
    (∃ tr, (create_decision_record st di r).2 = Except.ok tr ∧
      tr.metadata = [{ type := "STATE_SNAPSHOT",
                       snapshot := (create_decision_record st di r).1 }] ∧
      (create_decision_record st di r).1.tool_results.getLast? = some r ∧
      (create_decision_record st di r).1.current_tool = none) := by
  by_cases hs : s = "success"
  · subst hs
    exact ⟨⟨_, create_calendar_reminder_success st ci r h1, rfl,
            calendar_last_result st ci r, rfl⟩,
          ⟨_, generate_incident_report_success st ii r h1, rfl,
            incident_last_result st ii r, rfl⟩,
          ⟨_, create_decision_record_success st di r h1, rfl,
            decision_last_result st di r, rfl⟩⟩
  · have hb : (s == "success") = false := beq_eq_false_iff_ne.mpr hs
    exact ⟨⟨_, create_calendar_reminder_fail st ci r s h1 hb, rfl,
            calendar_last_result st ci r, rfl⟩,
          ⟨_, generate_incident_report_fail st ii r s h1 hb, rfl,
            incident_last_result st ii r, rfl⟩,
          ⟨_, create_decision_record_fail st di r s h1 hb, rfl,
            decision_last_result st di r, rfl⟩⟩

/-- Witness for C6: the snapshot theorem instantiated on concrete inputs
with an executor result of status "success". -/
theorem adapters_snapshot_full_copy_witness :
    (dictGet sampleOkResult "status" = some "success") ∧
    ((∃ tr, (create_calendar_reminder sampleState sampleCalendarInput
        sampleOkResult).2 = Except.ok tr ∧
      tr.metadata = [{ type := "STATE_SNAPSHOT",
                       snapshot := (create_calendar_reminder sampleState
                         sampleCalendarInput sampleOkResult).1 }] ∧
      (create_calendar_reminder sampleState sampleCalendarInput
        sampleOkResult).1.tool_results.getLast? = some sampleOkResult ∧
      (create_calendar_reminder sampleState sampleCalendarInput
        sampleOkResult).1.current_tool = none) ∧
    (∃ tr, (generate_incident_report sampleState sampleIncidentInput
        sampleOkResult).2 = Except.ok tr ∧
      tr.metadata = [{ type := "STATE_SNAPSHOT",
                       snapshot := (generate_incident_report sampleState
                         sampleIncidentInput sampleOkResult).1 }] ∧
      (generate_incident_report sampleState sampleIncidentInput
        sampleOkResult).1.tool_results.getLast? = some sampleOkResult ∧
      (generate_incident_report sampleState sampleIncidentInput
        sampleOkResult).1.current_tool = none) ∧
    (∃ tr, (create_decision_record sampleState sampleDecisionInput
        sampleOkResult).2 = Except.ok tr ∧
      tr.metadata = [{ type := "STATE_SNAPSHOT",
                       snapshot := (create_decision_record sampleState
                         sampleDecisionInput sampleOkResult).1 }] ∧
      (create_decision_record sampleState sampleDecisionInput
        sampleOkResult).1.tool_results.getLast? = some sampleOkResult ∧
      (create_decision_record sampleState sampleDecisionInput
        sampleOkResult).1.current_tool = none)) :=
  ⟨by decide,
   adapters_snapshot_full_copy sampleState sampleCalendarInput sampleIncidentInput
     sampleDecisionInput sampleOkResult "success" (by decide)⟩

theorem runCall_tool_results (st : AgentState) (c : ToolCall) :
    (runCall st c).tool_results = st.tool_results ++ [callResult c] := by
  cases c <;> rfl

theorem runCalls_tool_results_general (cs : List ToolCall) (st : AgentState) :
    (runCalls st cs).tool_results = st.tool_results ++ cs.map callResult := by
  induction cs generalizing st with
  | nil => simp [runCalls]
  | cons c cs ih =>
    show (runCalls (runCall st c) cs).tool_results = _
    rw [ih (runCall st c), runCall_tool_results]
    simp

/-- C7: running any sequence of tool-adapter invocations from a state with an
empty results list leaves `tool_results` equal to the sequence of executor
result dictionaries in exactly invocation order; nothing is removed,
reordered or overwritten. -/
theorem runCalls_results_in_call_order (st : AgentState) (cs : List ToolCall)
    (h : st.tool_results = []) :
    (runCalls st cs).tool_results = cs.map callResult := by
  rw [runCalls_tool_results_general, h, List.nil_append]

/-- Witness for C7: a concrete two-call session starting from the initial
state, accumulating the two executor results in order. -/
theorem runCalls_results_in_call_order_witness :
    (sampleState.tool_results = []) ∧
    (runCalls sampleState
        [ToolCall.calendar sampleCalendarInput sampleOkResult,
         ToolCall.decision sampleDecisionInput sampleFailResult]).tool_results =
      List.map callResult
        [ToolCall.calendar sampleCalendarInput sampleOkResult,
         ToolCall.decision sampleDecisionInput sampleFailResult] :=
  ⟨rfl,
   runCalls_results_in_call_order sampleState
     [ToolCall.calendar sampleCalendarInput sampleOkResult,
      ToolCall.decision sampleDecisionInput sampleFailResult] rfl⟩

/-- C8: the lazy getter is idempotent: starting from an empty global it
stores and returns the freshly constructed agent, on a populated global it
returns the stored object and leaves the global untouched, and a second call
after any call changes nothing and returns the same object. -/
theorem get_agui_agent_singleton (m : String) (g : Option Agent) (a : Agent) :
    get_agui_agent m none = (some (create_agui_agent m), create_agui_agent m) ∧
    get_agui_agent m (some a) = (some a, a) ∧
    get_agui_agent m (get_agui_agent m g).1 = get_agui_agent m g := by
  refine ⟨rfl, rfl, ?_⟩
  cases g <;> rfl

end AguiAgent
